import Mathlib

/-!
Verification development for the Razorpay subscription plugin:
a shallow embedding of the webhook-driven subscription state
synchronization engine (signature verification, event routing,
per-event reconciliation handlers) and of the action endpoints
(upgrade, cancel) together with their reference-authorization
middleware.  Databases are modelled as lists of subscription rows;
remote provider calls and user callbacks are explicit parameters;
clock reads (new Date()) are threaded as explicit arguments.
-/

namespace RzpSpec

/-- Subscription status enumeration, from RazorpaySubscriptionStatus in types.ts. -/
inductive SubStatus
  | created
  | authenticated
  | active
  | pending
  | halted
  | cancelled
  | completed
  | expired
  | paused
deriving DecidableEq, Repr

/-- JavaScript string truthiness: the empty string is falsy.  Collapses
an optional string to none when it is absent or empty, mirroring the
pervasive checks of the form if (!referenceId) in the source. -/
def jsStr : Option String → Option String
  | none => none
  | some s => if s = "" then none else some s

/-- Modelled from the spec: toSubscriptionStatus in utils.ts is absent from
the provided sources (only its unit tests in utils.test.ts and its callers
in hooks.ts are present).  Per the tests, each of the nine known status
strings maps to itself and every other string falls back to created. -/
def toSubscriptionStatus (s : String) : SubStatus :=
  if s = "created" then .created
  else if s = "authenticated" then .authenticated
  else if s = "active" then .active
  else if s = "pending" then .pending
  else if s = "halted" then .halted
  else if s = "cancelled" then .cancelled
  else if s = "completed" then .completed
  else if s = "expired" then .expired
  else if s = "paused" then .paused
  else .created

/-- The nine provider status strings recognised by toSubscriptionStatus. -/
def knownStatusStrings : List String :=
  ["created", "authenticated", "active", "pending", "halted",
   "cancelled", "completed", "expired", "paused"]

/-- Modelled from the spec: timestampToDate in utils.ts is absent from the
provided sources (only its unit tests are present).  Per the tests and the
data-model spec, zero or absent provider timestamps mean unset (never
epoch-zero) and a positive timestamp in seconds becomes an absolute time
in milliseconds. -/
def timestampToDate : Option Nat → Option Nat
  | none => none
  | some t => if t = 0 then none else some (t * 1000)

/-- Modelled from the spec: isActive in utils.ts is absent from the provided
sources (only its unit tests are present): true exactly for status active. -/
def isActive (s : SubStatus) : Bool := s = SubStatus.active

/-- Modelled from the spec: isCancelled in utils.ts is absent from the
provided sources: true exactly for status cancelled. -/
def isCancelled (s : SubStatus) : Bool := s = SubStatus.cancelled

/-- Modelled from the spec: isPaused in utils.ts is absent from the provided
sources: true exactly for status paused. -/
def isPaused (s : SubStatus) : Bool := s = SubStatus.paused

/-- Modelled from the spec: isTerminal in utils.ts is absent from the
provided sources: true exactly for the terminal states cancelled,
completed and expired. -/
def isTerminal (s : SubStatus) : Bool :=
  s = SubStatus.cancelled || s = SubStatus.completed || s = SubStatus.expired

/-- ASCII lower-casing of one character, as String.prototype.toLowerCase
acts on the ASCII plan names this plugin compares. -/
def lowerChar (c : Char) : Char :=
  if 65 ≤ c.toNat ∧ c.toNat ≤ 90 then Char.ofNat (c.toNat + 32) else c

/-- name.toLowerCase() on plan names (ASCII). -/
def strToLower (s : String) : String := String.mk (s.data.map lowerChar)

/-- Plan configuration entry, from RazorpayPlan in types.ts (the fields the
endpoints read; freeTrial is reduced to its day count). -/
structure RazorpayPlan where
  planId : String
  annualPlanId : Option String := none
  name : String
  group : Option String := none
  totalCount : Option Nat := none
  quantity : Option Nat := none
  freeTrialDays : Option Nat := none
deriving DecidableEq, Repr

/-- Modelled from the spec: getPlanByPlanId in utils.ts is absent from the
provided sources (only its unit tests are present).  Per the tests it finds
the configured plan whose planId or annualPlanId equals the given id. -/
def getPlanByPlanId (plans : List RazorpayPlan) (razorpayPlanId : String) :
    Option RazorpayPlan :=
  plans.find? fun p =>
    decide (p.planId = razorpayPlanId) || decide (p.annualPlanId = some razorpayPlanId)

/-! ### HMAC-SHA256 over byte lists

The webhook route computes crypto.createHmac("sha256", secret)
.update(rawBody).digest("hex").  Bytes are Nat values below 256 and
32-bit words are Nat values reduced modulo 2^32. -/

/-- Truncate to a 32-bit machine word. -/
def w32 (n : Nat) : Nat := n % 4294967296

/-- 32-bit right rotation. -/
def rotr (n x : Nat) : Nat := w32 (Nat.lor (x >>> n) (x <<< (32 - n)))

/-- SHA-256 big sigma 0. -/
def bigSigma0 (x : Nat) : Nat := Nat.xor (rotr 2 x) (Nat.xor (rotr 13 x) (rotr 22 x))

/-- SHA-256 big sigma 1. -/
def bigSigma1 (x : Nat) : Nat := Nat.xor (rotr 6 x) (Nat.xor (rotr 11 x) (rotr 25 x))

/-- SHA-256 small sigma 0. -/
def smallSigma0 (x : Nat) : Nat := Nat.xor (rotr 7 x) (Nat.xor (rotr 18 x) (w32 x >>> 3))

/-- SHA-256 small sigma 1. -/
def smallSigma1 (x : Nat) : Nat := Nat.xor (rotr 17 x) (Nat.xor (rotr 19 x) (w32 x >>> 10))

/-- SHA-256 choice function. -/
def shaCh (x y z : Nat) : Nat := Nat.xor (Nat.land x y) (Nat.land (Nat.xor x 4294967295) z)

/-- SHA-256 majority function. -/
def shaMaj (x y z : Nat) : Nat :=
  Nat.xor (Nat.land x y) (Nat.xor (Nat.land x z) (Nat.land y z))

/-- The 64 SHA-256 round constants. -/
def shaK : List Nat :=
  [1116352408, 1899447441, 3049323471, 3921009573,
   961987163, 1508970993, 2453635748, 2870763221,
   3624381080, 310598401, 607225278, 1426881987,
   1925078388, 2162078206, 2614888103, 3248222580,
   3835390401, 4022224774, 264347078, 604807628,
   770255983, 1249150122, 1555081692, 1996064986,
   2554220882, 2821834349, 2952996808, 3210313671,
   3336571891, 3584528711, 113926993, 338241895,
   666307205, 773529912, 1294757372, 1396182291,
   1695183700, 1986661051, 2177026350, 2456956037,
   2730485921, 2820302411, 3259730800, 3345764771,
   3516065817, 3600352804, 4094571909, 275423344,
   430227734, 506948616, 659060556, 883997877,
   958139571, 1322822218, 1537002063, 1747873779,
   1955562222, 2024104815, 2227730452, 2361852424,
   2428436474, 2756734187, 3204031479, 3329325298]

/-- SHA-256 working state: eight 32-bit words. -/
structure Sha256State where
  a : Nat
  b : Nat
  c : Nat
  d : Nat
  e : Nat
  f : Nat
  g : Nat
  h : Nat
deriving DecidableEq, Repr

/-- SHA-256 initial hash value. -/
def shaInit : Sha256State :=
  ⟨1779033703, 3144134277, 1013904242, 2773480762,
   1359893119, 2600822924, 528734635, 1541459225⟩

/-- One SHA-256 compression round for a (round constant, schedule word) pair. -/
def shaRound (st : Sha256State) (kw : Nat × Nat) : Sha256State :=
  let t1 := w32 (st.h + bigSigma1 st.e + shaCh st.e st.f st.g + kw.1 + kw.2)
  let t2 := w32 (bigSigma0 st.a + shaMaj st.a st.b st.c)
  ⟨w32 (t1 + t2), st.a, st.b, st.c, w32 (st.d + t1), st.e, st.f, st.g⟩

/-- Extend a 16-word block by n further message-schedule words. -/
def extendSchedule : List Nat → Nat → List Nat
  | ws, 0 => ws
  | ws, n + 1 =>
    let t := w32 (smallSigma1 (ws.getD (ws.length - 2) 0) +
      ws.getD (ws.length - 7) 0 +
      smallSigma0 (ws.getD (ws.length - 15) 0) +
      ws.getD (ws.length - 16) 0)
    extendSchedule (ws ++ [t]) n

/-- Compress one 16-word block into the running hash state. -/
def compressBlock (st : Sha256State) (block : List Nat) : Sha256State :=
  let ws := extendSchedule block 48
  let r := (shaK.zip ws).foldl shaRound st
  ⟨w32 (st.a + r.a), w32 (st.b + r.b), w32 (st.c + r.c), w32 (st.d + r.d),
   w32 (st.e + r.e), w32 (st.f + r.f), w32 (st.g + r.g), w32 (st.h + r.h)⟩

/-- Big-endian 4-byte serialization of a 32-bit word. -/
def beBytes4 (x : Nat) : List Nat :=
  [x >>> 24 % 256, x >>> 16 % 256, x >>> 8 % 256, x % 256]

/-- Big-endian 8-byte serialization of a 64-bit value. -/
def beBytes8 (x : Nat) : List Nat :=
  beBytes4 (x >>> 32 % 4294967296) ++ beBytes4 (x % 4294967296)

/-- SHA-256 message padding: append 0x80, zeros and the 64-bit bit length. -/
def padMessage (msg : List Nat) : List Nat :=
  msg ++ [0x80] ++ List.replicate ((119 - msg.length % 64) % 64) 0 ++
    beBytes8 (8 * msg.length)

/-- Group a byte list into big-endian 32-bit words (fuel-driven). -/
def wordsOfBytesAux : Nat → List Nat → List Nat
  | 0, _ => []
  | _, [] => []
  | fuel + 1, b0 :: b1 :: b2 :: b3 :: rest =>
    (((b0 * 256 + b1) * 256 + b2) * 256 + b3) :: wordsOfBytesAux fuel rest
  | _ + 1, l => [l.foldl (fun acc b => acc * 256 + b) 0]

/-- Group a byte list into big-endian 32-bit words. -/
def wordsOfBytes (l : List Nat) : List Nat := wordsOfBytesAux l.length l

/-- Split a byte list into 64-byte chunks (fuel-driven). -/
def chunks64Aux : Nat → List Nat → List (List Nat)
  | 0, _ => []
  | _, [] => []
  | fuel + 1, l => l.take 64 :: chunks64Aux fuel (l.drop 64)

/-- Split a byte list into 64-byte chunks. -/
def chunks64 (l : List Nat) : List (List Nat) := chunks64Aux l.length l

/-- SHA-256 of a byte list, as a 32-byte list. -/
def sha256 (msg : List Nat) : List Nat :=
  let final := (chunks64 (padMessage msg)).foldl
    (fun st chunk => compressBlock st (wordsOfBytes chunk)) shaInit
  beBytes4 final.a ++ beBytes4 final.b ++ beBytes4 final.c ++ beBytes4 final.d ++
    beBytes4 final.e ++ beBytes4 final.f ++ beBytes4 final.g ++ beBytes4 final.h

/-- HMAC-SHA256 of a message under a key, as a 32-byte list. -/
def hmacSha256 (key msg : List Nat) : List Nat :=
  let k0 := if 64 < key.length then sha256 key else key
  let k := k0 ++ List.replicate (64 - k0.length) 0
  let ipadKey := k.map fun b => Nat.xor b 0x36
  let opadKey := k.map fun b => Nat.xor b 0x5c
  sha256 (opadKey ++ sha256 (ipadKey ++ msg))

/-- One lowercase hexadecimal digit. -/
def hexDigit (n : Nat) : Char :=
  if n < 10 then Char.ofNat (48 + n) else Char.ofNat (87 + n)

/-- Two-character lowercase hexadecimal rendering of one byte. -/
def byteToHex (b : Nat) : List Char := [hexDigit (b / 16), hexDigit (b % 16)]

/-- Lowercase hexadecimal string of a byte list, as digest("hex") yields. -/
def bytesToHex (bs : List Nat) : String := String.mk (bs.flatMap byteToHex)

/-- The hex digest the webhook route compares signatures against. -/
def hmacSha256Hex (key msg : List Nat) : String := bytesToHex (hmacSha256 key msg)

/-! ### Data model -/

/-- Customer type of the billed reference entity. -/
inductive CustomerType
  | user
  | organization
deriving DecidableEq, Repr

/-- Locally persisted subscription row, from the Subscription interface in
types.ts.  Dates are absolute times in milliseconds; id is the local
primary key as allocated by the adapter. -/
structure Subscription where
  id : Nat
  plan : String
  razorpayCustomerId : Option String := none
  razorpaySubscriptionId : Option String := none
  razorpayPlanId : Option String := none
  referenceId : String
  status : SubStatus := .created
  currentStart : Option Nat := none
  currentEnd : Option Nat := none
  endedAt : Option Nat := none
  quantity : Option Nat := none
  totalCount : Option Nat := none
  paidCount : Option Nat := none
  remainingCount : Option Nat := none
  cancelledAt : Option Nat := none
  pausedAt : Option Nat := none
  shortUrl : Option String := none
  cancelAtCycleEnd : Option Bool := none
  groupId : Option String := none
  updatedAt : Option Nat := none
deriving DecidableEq, Repr

/-- The free-form notes field of a provider subscription entity: either a
key-value object or (degenerate provider case) an array. -/
inductive RzpNotes
  | arr
  | obj (fields : List (String × String))
deriving DecidableEq, Repr

/-- subscriptionNotes.get from metadata.ts, restricted to the referenceId
key the hooks read: absent or array notes yield nothing, otherwise the
value stored under the referenceId key. -/
def subscriptionNotesGetReferenceId : Option RzpNotes → Option String
  | none => none
  | some .arr => none
  | some (.obj fields) => (fields.find? fun kv => decide (kv.1 = "referenceId")).map (·.2)

/-- Provider subscription entity carried in webhook payloads, from
RazorpaySubscriptionEntity in types.ts (the fields the hooks read).  The
status is the raw provider string, as it is at runtime. -/
structure RzpSubEntity where
  id : String
  plan_id : String
  customer_id : Option String := none
  status : String := "created"
  current_start : Option Nat := none
  current_end : Option Nat := none
  ended_at : Option Nat := none
  quantity : Nat := 1
  notes : Option RzpNotes := none
  total_count : Nat := 0
  paid_count : Nat := 0
  remaining_count : Nat := 0
  short_url : Option String := none
  paused_at : Option Nat := none
deriving DecidableEq, Repr

/-- Webhook event, from RazorpayWebhookEvent in types.ts: the event-type
string and the optional payload.subscription.entity. -/
structure RzpEvent where
  event : String
  subscription : Option RzpSubEntity := none
deriving DecidableEq, Repr

/-- Persistence state: the subscription table plus the razorpayCustomerId
links on the externally owned user and organization tables, and the
adapter's id allocator for created rows. -/
structure Db where
  nextId : Nat := 0
  subs : List Subscription := []
  orgs : List (String × String) := []
  users : List (String × String) := []
deriving DecidableEq, Repr

/-- Plugin configuration, flattening RazorpayOptions and
SubscriptionOptions to the fields the modelled routes and hooks read.
Optional user callbacks are represented by whether they are configured
and whether their promise rejects; they cannot write to the Db in this
embedding. -/
structure Options where
  razorpayWebhookSecret : List Nat := []
  subscriptionEnabled : Bool := true
  plans : List RazorpayPlan := []
  requireEmailVerification : Bool := false
  organizationEnabled : Bool := false
  authorizeReference : Option (String → String → Bool) := none
  onEvent : Option Bool := none

/-! ### Persistence primitives -/

/-- adapter.findOne on the subscription table keyed by
razorpaySubscriptionId: first row whose key matches. -/
def findByRzpId (subs : List Subscription) (rid : String) : Option Subscription :=
  subs.find? fun s => decide (s.razorpaySubscriptionId = some rid)

/-- adapter.findOne on the subscription table keyed by referenceId:
first row whose reference matches. -/
def findByReference (subs : List Subscription) (refId : String) : Option Subscription :=
  subs.find? fun s => decide (s.referenceId = refId)

/-- First row with the given local primary key. -/
def getById (subs : List Subscription) (i : Nat) : Option Subscription :=
  subs.find? fun s => decide (s.id = i)

/-- adapter.update keyed by the local primary key: rewrite every row whose
id matches through the update function. -/
def updateById (subs : List Subscription) (i : Nat) (f : Subscription → Subscription) :
    List Subscription :=
  subs.map fun s => if s.id = i then f s else s

/-- Number of rows carrying a given provider subscription id. -/
def countByRzpId (subs : List Subscription) (rid : String) : Nat :=
  (subs.filter fun s => decide (s.razorpaySubscriptionId = some rid)).length

/-- findReferenceByRazorpayCustomerId from hooks.ts: organization-linked
customer ids first when organization billing is enabled, then
user-linked customer ids. -/
def findReferenceByRazorpayCustomerId (db : Db) (opts : Options) (cid : String) :
    Option (CustomerType × String) :=
  let viaUser := (db.users.find? fun kv => decide (kv.1 = cid)).map
    fun kv => (CustomerType.user, kv.2)
  if opts.organizationEnabled then
    match db.orgs.find? fun kv => decide (kv.1 = cid) with
    | some kv => some (CustomerType.organization, kv.2)
    | none => viaUser
  else viaUser

/-- The orphan-path reference reconstruction shared by the hooks: the
customer-id lookup, falling back to the referenceId embedded in the
event notes, with JavaScript string falsiness on both. -/
def resolveReference (db : Db) (opts : Options) (z : RzpSubEntity) : Option String :=
  let viaCustomer :=
    match z.customer_id with
    | some cid => (findReferenceByRazorpayCustomerId db opts cid).map (·.2)
    | none => none
  jsStr ((jsStr viaCustomer).orElse fun _ => subscriptionNotesGetReferenceId z.notes)

/-! ### Webhook reconciliation handlers (hooks.ts)

Each source handler wraps its whole body in try/catch and logs instead of
rethrowing, so every handler denotes a total function on the Db; the
optional user callback is invoked after the persistence write, inside the
same catch, and cannot alter the Db.  new Date() reads are the explicit
now argument (milliseconds). -/

/-- plan?.name.toLowerCase() || fallback, with JavaScript falsiness on the
lower-cased name. -/
def planNameOr (plan? : Option RazorpayPlan) (fallback : String) : String :=
  match plan? with
  | some p => if strToLower p.name = "" then fallback else strToLower p.name
  | none => fallback

/-- subscription.authenticated handler from hooks.ts. -/
def onSubscriptionAuthenticated (opts : Options) (db : Db) (ev : RzpEvent) (now : Nat) :
    Db :=
  if !opts.subscriptionEnabled then db else
  match ev.subscription with
  | none => db
  | some z =>
    match findByRzpId db.subs z.id with
    | some s =>
      { db with subs := updateById db.subs s.id fun s0 =>
          { s0 with status := .authenticated, updatedAt := some now } }
    | none =>
      match resolveReference db opts z with
      | none => db
      | some refId =>
        let plan? := getPlanByPlanId opts.plans z.plan_id
        { db with
          nextId := db.nextId + 1
          subs := db.subs ++ [{
            id := db.nextId
            plan := planNameOr plan? z.plan_id
            referenceId := refId
            razorpayCustomerId := z.customer_id
            razorpaySubscriptionId := some z.id
            razorpayPlanId := some z.plan_id
            status := .authenticated
            quantity := some z.quantity
            totalCount := some z.total_count
            paidCount := some z.paid_count
            remainingCount := some z.remaining_count
            shortUrl := z.short_url }] }

/-- The full-field overwrite applied by the subscription.activated handler
(its updateData object, plus the conditional plan re-resolution). -/
def activatedUpdate (z : RzpSubEntity) (plan? : Option RazorpayPlan) (now : Nat)
    (s : Subscription) : Subscription :=
  { s with
    status := .active
    razorpayPlanId := some z.plan_id
    razorpayCustomerId := z.customer_id
    currentStart := timestampToDate z.current_start
    currentEnd := timestampToDate z.current_end
    quantity := some z.quantity
    totalCount := some z.total_count
    paidCount := some z.paid_count
    remainingCount := some z.remaining_count
    shortUrl := z.short_url
    updatedAt := some now
    plan := match plan? with | some p => strToLower p.name | none => s.plan }

/-- The row the subscription.activated handler creates on its orphan path
(adapter.create data: the updateData spread plus plan, referenceId and
razorpaySubscriptionId). -/
def activatedCreateRow (z : RzpSubEntity) (plan? : Option RazorpayPlan)
    (refId : String) (newId : Nat) (now : Nat) : Subscription := {
  id := newId
  plan := planNameOr plan? z.plan_id
  referenceId := refId
  razorpayCustomerId := z.customer_id
  razorpaySubscriptionId := some z.id
  razorpayPlanId := some z.plan_id
  status := .active
  currentStart := timestampToDate z.current_start
  currentEnd := timestampToDate z.current_end
  quantity := some z.quantity
  totalCount := some z.total_count
  paidCount := some z.paid_count
  remainingCount := some z.remaining_count
  shortUrl := z.short_url
  updatedAt := some now }

/-- subscription.activated handler from hooks.ts. -/
def onSubscriptionActivated (opts : Options) (db : Db) (ev : RzpEvent) (now : Nat) :
    Db :=
  if !opts.subscriptionEnabled then db else
  match ev.subscription with
  | none => db
  | some z =>
    let plan? := getPlanByPlanId opts.plans z.plan_id
    match findByRzpId db.subs z.id with
    | some s =>
      { db with subs := updateById db.subs s.id (activatedUpdate z plan? now) }
    | none =>
      match resolveReference db opts z with
      | none => db
      | some refId =>
        { db with
          nextId := db.nextId + 1
          subs := db.subs ++ [activatedCreateRow z plan? refId db.nextId now] }

/-- The overwrite applied by the subscription.charged handler. -/
def chargedUpdate (z : RzpSubEntity) (now : Nat) (s0 : Subscription) : Subscription :=
  { s0 with
    status := toSubscriptionStatus z.status
    currentStart := timestampToDate z.current_start
    currentEnd := timestampToDate z.current_end
    paidCount := some z.paid_count
    remainingCount := some z.remaining_count
    updatedAt := some now }

/-- subscription.charged handler from hooks.ts: no orphan creation, status
taken from the provider-reported string through toSubscriptionStatus. -/
def onSubscriptionCharged (opts : Options) (db : Db) (ev : RzpEvent) (now : Nat) :
    Db :=
  if !opts.subscriptionEnabled then db else
  match ev.subscription with
  | none => db
  | some z =>
    match findByRzpId db.subs z.id with
    | none => db
    | some s =>
      { db with subs := updateById db.subs s.id (chargedUpdate z now) }

/-- subscription.pending handler from hooks.ts. -/
def onSubscriptionPending (opts : Options) (db : Db) (ev : RzpEvent) (now : Nat) :
    Db :=
  if !opts.subscriptionEnabled then db else
  match ev.subscription with
  | none => db
  | some z =>
    match findByRzpId db.subs z.id with
    | none => db
    | some s =>
      { db with subs := updateById db.subs s.id fun s0 =>
          { s0 with status := .pending, updatedAt := some now } }

/-- subscription.halted handler from hooks.ts. -/
def onSubscriptionHalted (opts : Options) (db : Db) (ev : RzpEvent) (now : Nat) :
    Db :=
  if !opts.subscriptionEnabled then db else
  match ev.subscription with
  | none => db
  | some z =>
    match findByRzpId db.subs z.id with
    | none => db
    | some s =>
      { db with subs := updateById db.subs s.id fun s0 =>
          { s0 with status := .halted, updatedAt := some now } }

/-- The overwrite applied by the subscription.completed handler. -/
def completedUpdate (z : RzpSubEntity) (now : Nat) (s0 : Subscription) : Subscription :=
  { s0 with
    status := .completed
    endedAt := some ((timestampToDate z.ended_at).getD now)
    paidCount := some z.paid_count
    remainingCount := some 0
    updatedAt := some now }

/-- subscription.completed handler from hooks.ts. -/
def onSubscriptionCompleted (opts : Options) (db : Db) (ev : RzpEvent) (now : Nat) :
    Db :=
  if !opts.subscriptionEnabled then db else
  match ev.subscription with
  | none => db
  | some z =>
    match findByRzpId db.subs z.id with
    | none => db
    | some s =>
      { db with subs := updateById db.subs s.id (completedUpdate z now) }

/-- The overwrite applied by the subscription.updated handler. -/
def updatedUpdate (z : RzpSubEntity) (plan? : Option RazorpayPlan) (now : Nat)
    (s0 : Subscription) : Subscription :=
  { s0 with
    plan := match plan? with | some p => strToLower p.name | none => s0.plan
    status := toSubscriptionStatus z.status
    razorpayPlanId := some z.plan_id
    currentStart := timestampToDate z.current_start
    currentEnd := timestampToDate z.current_end
    quantity := some z.quantity
    totalCount := some z.total_count
    paidCount := some z.paid_count
    remainingCount := some z.remaining_count
    updatedAt := some now }

/-- subscription.updated handler from hooks.ts. -/
def onSubscriptionUpdated (opts : Options) (db : Db) (ev : RzpEvent) (now : Nat) :
    Db :=
  if !opts.subscriptionEnabled then db else
  match ev.subscription with
  | none => db
  | some z =>
    match findByRzpId db.subs z.id with
    | none => db
    | some s =>
      let plan? := getPlanByPlanId opts.plans z.plan_id
      { db with subs := updateById db.subs s.id (updatedUpdate z plan? now) }

/-- subscription.paused handler from hooks.ts. -/
def onSubscriptionPaused (opts : Options) (db : Db) (ev : RzpEvent) (now : Nat) :
    Db :=
  if !opts.subscriptionEnabled then db else
  match ev.subscription with
  | none => db
  | some z =>
    match findByRzpId db.subs z.id with
    | none => db
    | some s =>
      { db with subs := updateById db.subs s.id fun s0 =>
          { s0 with
            status := .paused
            pausedAt := some ((timestampToDate z.paused_at).getD now)
            updatedAt := some now } }

/-- The overwrite applied by the subscription.resumed handler. -/
def resumedUpdate (z : RzpSubEntity) (now : Nat) (s0 : Subscription) : Subscription :=
  { s0 with
    status := toSubscriptionStatus z.status
    pausedAt := none
    currentStart := timestampToDate z.current_start
    currentEnd := timestampToDate z.current_end
    updatedAt := some now }

/-- subscription.resumed handler from hooks.ts. -/
def onSubscriptionResumed (opts : Options) (db : Db) (ev : RzpEvent) (now : Nat) :
    Db :=
  if !opts.subscriptionEnabled then db else
  match ev.subscription with
  | none => db
  | some z =>
    match findByRzpId db.subs z.id with
    | none => db
    | some s =>
      { db with subs := updateById db.subs s.id (resumedUpdate z now) }

/-- The overwrite applied by the subscription.cancelled handler. -/
def cancelledUpdate (z : RzpSubEntity) (now : Nat) (s0 : Subscription) : Subscription :=
  { s0 with
    status := .cancelled
    cancelledAt := some now
    endedAt := some ((timestampToDate z.ended_at).getD now)
    updatedAt := some now }

/-- subscription.cancelled handler from hooks.ts. -/
def onSubscriptionCancelled (opts : Options) (db : Db) (ev : RzpEvent) (now : Nat) :
    Db :=
  if !opts.subscriptionEnabled then db else
  match ev.subscription with
  | none => db
  | some z =>
    match findByRzpId db.subs z.id with
    | none => db
    | some s =>
      { db with subs := updateById db.subs s.id (cancelledUpdate z now) }

/-! ### Webhook endpoint (routes.ts, razorpayWebhook) -/

/-- Machine-readable error codes from error-codes.ts (those the modelled
routes can raise). -/
inductive RzpErrorCode
  | WEBHOOK_SECRET_NOT_FOUND
  | WEBHOOK_SIGNATURE_NOT_FOUND
  | FAILED_TO_VERIFY_WEBHOOK
  | WEBHOOK_ERROR
  | EMAIL_VERIFICATION_REQUIRED
  | SUBSCRIPTION_PLAN_NOT_FOUND
  | ORGANIZATION_REFERENCE_ID_REQUIRED
  | CUSTOMER_NOT_FOUND
  | ALREADY_SUBSCRIBED_PLAN
  | SUBSCRIPTION_UPDATE_FAILED
  | SUBSCRIPTION_NOT_FOUND
  | SUBSCRIPTION_ALREADY_CANCELLED
  | SUBSCRIPTION_CANCEL_FAILED
  | AUTHORIZE_REFERENCE_REQUIRED
  | REFERENCE_ID_NOT_ALLOWED
  | UNAUTHORIZED
deriving DecidableEq, Repr

/-- HTTP status class of a createAPIError throw. -/
inductive ApiStatus
  | badRequest
  | unauthorized
  | forbidden
  | notFound
  | internalServerError
deriving DecidableEq, Repr

/-- Observable outcome of the webhook endpoint: the success
acknowledgment, a thrown createAPIError, or an exception that escaped
without being wrapped (such as the RangeError thrown by
crypto.timingSafeEqual on buffers of different lengths, or a rejection
of the user-supplied onEvent observer). -/
inductive WebhookOutcome
  | received
  | apiError (status : ApiStatus) (code : RzpErrorCode)
  | uncaught (msg : String)
deriving DecidableEq, Repr

/-- Externally visible effects performed while handling a request. -/
inductive Action
  | callOnEvent
  | callHandler (eventType : String)
  | remoteCall (kind : String)
deriving DecidableEq, Repr

/-- Node crypto.timingSafeEqual on the byte buffers of two strings: it
throws a RangeError when the lengths differ and otherwise reports
constant-time equality. -/
def timingSafeEqual (a b : String) : Except String Bool :=
  if a.length = b.length then .ok (a == b)
  else .error "RangeError: input buffers must have the same byte length"

/-- Inbound webhook request: the signature header as received, the raw
body bytes, and the result of JSON.parse on the raw body (none when the
body is unparsable). -/
structure WebhookRequest where
  signatureHeader : Option String := none
  rawBody : List Nat := []
  parsedEvent : Option RzpEvent := none

/-- The event-type dispatch switch of the webhook route: runs the matching
reconciliation handler, logging and ignoring unknown event types. -/
def dispatchEvent (opts : Options) (db : Db) (ev : RzpEvent) (now : Nat) :
    Db × List Action :=
  if ev.event = "subscription.authenticated" then
    (onSubscriptionAuthenticated opts db ev now, [.callHandler ev.event])
  else if ev.event = "subscription.activated" then
    (onSubscriptionActivated opts db ev now, [.callHandler ev.event])
  else if ev.event = "subscription.charged" then
    (onSubscriptionCharged opts db ev now, [.callHandler ev.event])
  else if ev.event = "subscription.pending" then
    (onSubscriptionPending opts db ev now, [.callHandler ev.event])
  else if ev.event = "subscription.halted" then
    (onSubscriptionHalted opts db ev now, [.callHandler ev.event])
  else if ev.event = "subscription.completed" then
    (onSubscriptionCompleted opts db ev now, [.callHandler ev.event])
  else if ev.event = "subscription.updated" then
    (onSubscriptionUpdated opts db ev now, [.callHandler ev.event])
  else if ev.event = "subscription.paused" then
    (onSubscriptionPaused opts db ev now, [.callHandler ev.event])
  else if ev.event = "subscription.resumed" then
    (onSubscriptionResumed opts db ev now, [.callHandler ev.event])
  else if ev.event = "subscription.cancelled" then
    (onSubscriptionCancelled opts db ev now, [.callHandler ev.event])
  else (db, [])

/-- The webhook endpoint from routes.ts: secret and signature presence
checks, HMAC-SHA256 verification through timingSafeEqual, JSON parsing,
the un-guarded await of the optional onEvent observer, then dispatch,
then the success acknowledgment. -/
def razorpayWebhook (opts : Options) (db : Db) (req : WebhookRequest) (now : Nat) :
    WebhookOutcome × Db × List Action :=
  if opts.razorpayWebhookSecret.isEmpty then
    (.apiError .internalServerError .WEBHOOK_SECRET_NOT_FOUND, db, [])
  else
    match jsStr req.signatureHeader with
    | none => (.apiError .badRequest .WEBHOOK_SIGNATURE_NOT_FOUND, db, [])
    | some signature =>
      let expectedSignature := hmacSha256Hex opts.razorpayWebhookSecret req.rawBody
      match timingSafeEqual signature expectedSignature with
      | .error msg => (.uncaught msg, db, [])
      | .ok false => (.apiError .badRequest .FAILED_TO_VERIFY_WEBHOOK, db, [])
      | .ok true =>
        match req.parsedEvent with
        | none => (.apiError .badRequest .WEBHOOK_ERROR, db, [])
        | some ev =>
          match opts.onEvent with
          | some true => (.uncaught "onEvent rejection", db, [.callOnEvent])
          | onEvent? =>
            let pre : List Action := if onEvent?.isSome then [.callOnEvent] else []
            let handled := dispatchEvent opts db ev now
            (.received, handled.1, pre ++ handled.2)

/-! ### Action endpoints (routes.ts) and reference middleware -/

/-- Session data the endpoints read after razorpaySessionMiddleware. -/
structure SessionInfo where
  userId : String
  userEmailVerified : Bool := true
  userRazorpayCustomerId : Option String := none
  activeOrganizationId : Option String := none
deriving DecidableEq, Repr

/-- Body of POST /subscription/upgrade. -/
structure UpgradeBody where
  plan : String
  referenceId : Option String := none
  customerType : Option CustomerType := none
  annual : Option Bool := none
deriving DecidableEq, Repr

/-- Body of POST /subscription/cancel. -/
structure CancelBody where
  referenceId : Option String := none
  customerType : Option CustomerType := none
  cancelAtCycleEnd : Option Bool := none
deriving DecidableEq, Repr

/-- Observable outcome of an action endpoint. -/
inductive EndpointOutcome
  | ok
  | apiError (status : ApiStatus) (code : RzpErrorCode)
deriving DecidableEq, Repr

/-- referenceMiddleware from middleware.ts, for an authenticated session:
the thrown createAPIError, or none when the request passes through to
the handler. -/
def referenceMiddleware (opts : Options) (sess : SessionInfo)
    (customerType : Option CustomerType) (explicitReferenceId : Option String)
    (action : String) : Option (ApiStatus × RzpErrorCode) :=
  match customerType with
  | some .organization =>
    match opts.authorizeReference with
    | none => some (.badRequest, .AUTHORIZE_REFERENCE_REQUIRED)
    | some authorize =>
      match (jsStr explicitReferenceId).orElse fun _ => jsStr sess.activeOrganizationId with
      | none => some (.badRequest, .ORGANIZATION_REFERENCE_ID_REQUIRED)
      | some referenceId =>
        if authorize referenceId action then none else some (.unauthorized, .UNAUTHORIZED)
  | _ =>
    match jsStr explicitReferenceId with
    | none => none
    | some referenceId =>
      if referenceId = sess.userId then none
      else
        match opts.authorizeReference with
        | none => some (.badRequest, .REFERENCE_ID_NOT_ALLOWED)
        | some authorize =>
          if authorize referenceId action then none
          else some (.unauthorized, .UNAUTHORIZED)

/-- Result of the remote provider call subscriptions.create. -/
structure RemoteSubResult where
  id : String
  short_url : Option String := none
deriving DecidableEq, Repr

/-- The referenceId resolution shared by the action-endpoint handlers:
body referenceId, else the active organization for organization billing,
else the authenticated user id. -/
def resolveActionReferenceId (sess : SessionInfo) (customerType : Option CustomerType)
    (bodyReferenceId : Option String) : Option String :=
  jsStr ((jsStr bodyReferenceId).orElse fun _ =>
    match customerType.getD .user with
    | .organization => jsStr sess.activeOrganizationId
    | .user => some sess.userId)

/-- The adapter.findMany lookup of the upgrade handler: subscriptions of
the same referenceId, restricted to the groupId when the target plan
declares a group. -/
def upgradeExistingSubs (db : Db) (plan : RazorpayPlan) (referenceId : String) :
    List Subscription :=
  db.subs.filter fun s =>
    decide (s.referenceId = referenceId) &&
      match plan.group with
      | some g => decide (s.groupId = some g)
      | none => true

/-- The activeSub selection of the upgrade handler: the first looked-up
subscription whose status is active or authenticated. -/
def upgradeActiveSub (db : Db) (plan : RazorpayPlan) (referenceId : String) :
    Option Subscription :=
  (upgradeExistingSubs db plan referenceId).find? fun s =>
    isActive s.status || decide (s.status = SubStatus.authenticated)

/-- The row the upgrade handler speculatively creates before the remote
call (adapter.create data, status created, the annual plan id when the
caller asked for annual billing and the plan declares one). -/
def upgradeCreateRow (plan : RazorpayPlan) (referenceId razorpayCustomerId : String)
    (body : UpgradeBody) (newId : Nat) : Subscription := {
  id := newId
  plan := strToLower plan.name
  referenceId := referenceId
  razorpayCustomerId := some razorpayCustomerId
  razorpayPlanId := some (match body.annual, plan.annualPlanId with
    | some true, some annualId => annualId
    | _, _ => plan.planId)
  status := .created
  quantity := some (plan.quantity.getD 1)
  totalCount := some (plan.totalCount.getD 0)
  groupId := plan.group }

/-- The speculative local create, the remote subscriptions.create call,
and the success update or rollback delete from the upgrade handler. -/
def upgradeRemotePhase (plan : RazorpayPlan) (referenceId : String)
    (razorpayCustomerId : String) (body : UpgradeBody) (db : Db)
    (remoteCreate : Except String RemoteSubResult) (now : Nat) :
    EndpointOutcome × Db × List Action :=
  let dbSubscription : Subscription :=
    upgradeCreateRow plan referenceId razorpayCustomerId body db.nextId
  let db1 : Db := { db with nextId := db.nextId + 1, subs := db.subs ++ [dbSubscription] }
  match remoteCreate with
  | .ok razorpaySub =>
    let db2 : Db := { db1 with subs := updateById db1.subs dbSubscription.id fun s0 =>
      { s0 with
        razorpaySubscriptionId := some razorpaySub.id
        shortUrl := razorpaySub.short_url
        updatedAt := some now } }
    (.ok, db2, [.remoteCall "subscriptions.create"])
  | .error _ =>
    let db2 : Db := { db1 with
      subs := db1.subs.filter (fun s => !(decide (s.id = dbSubscription.id))) }
    (.apiError .internalServerError .SUBSCRIPTION_UPDATE_FAILED, db2,
      [.remoteCall "subscriptions.create"])

/-- The handler of POST /subscription/upgrade from routes.ts, after the
middleware chain has passed.  remoteCreate is the response of the
provider call subscriptions.create for this request. -/
def upgradeHandler (opts : Options) (sess : SessionInfo) (body : UpgradeBody)
    (db : Db) (remoteCreate : Except String RemoteSubResult) (now : Nat) :
    EndpointOutcome × Db × List Action :=
  if opts.requireEmailVerification && !sess.userEmailVerified then
    (.apiError .forbidden .EMAIL_VERIFICATION_REQUIRED, db, [])
  else
    match opts.plans.find? fun p => decide (strToLower p.name = strToLower body.plan) with
    | none => (.apiError .badRequest .SUBSCRIPTION_PLAN_NOT_FOUND, db, [])
    | some plan =>
      match resolveActionReferenceId sess body.customerType body.referenceId with
      | none => (.apiError .badRequest .ORGANIZATION_REFERENCE_ID_REQUIRED, db, [])
      | some referenceId =>
        match jsStr sess.userRazorpayCustomerId with
        | none => (.apiError .badRequest .CUSTOMER_NOT_FOUND, db, [])
        | some razorpayCustomerId =>
          match upgradeActiveSub db plan referenceId with
          | some a =>
            if a.plan = strToLower plan.name then
              (.apiError .badRequest .ALREADY_SUBSCRIBED_PLAN, db, [])
            else
              upgradeRemotePhase plan referenceId razorpayCustomerId body db
                remoteCreate now
          | none =>
            upgradeRemotePhase plan referenceId razorpayCustomerId body db
              remoteCreate now

/-- POST /subscription/upgrade: the referenceMiddleware followed by the
handler. -/
def upgradeSubscription (opts : Options) (sess : SessionInfo) (body : UpgradeBody)
    (db : Db) (remoteCreate : Except String RemoteSubResult) (now : Nat) :
    EndpointOutcome × Db × List Action :=
  match referenceMiddleware opts sess body.customerType body.referenceId
    "upgrade-subscription" with
  | some err => (.apiError err.1 err.2, db, [])
  | none => upgradeHandler opts sess body db remoteCreate now

/-- The cancel update object: cancelAtCycleEnd true sets only that flag,
otherwise the status, cancelledAt and endedAt fields are written. -/
def cancelUpdate (cancelAtCycleEnd : Bool) (now : Nat) (s0 : Subscription) :
    Subscription :=
  if cancelAtCycleEnd then
    { s0 with cancelAtCycleEnd := some true, updatedAt := some now }
  else
    { s0 with
      status := .cancelled
      cancelledAt := some now
      endedAt := some now
      updatedAt := some now }

/-- The handler of POST /subscription/cancel from routes.ts, after the
middleware chain has passed.  remoteCancel is the response of the
provider call subscriptions.cancel. -/
def cancelHandler (sess : SessionInfo) (body : CancelBody)
    (db : Db) (remoteCancel : Except String Unit) (now : Nat) :
    EndpointOutcome × Db × List Action :=
  match resolveActionReferenceId sess body.customerType body.referenceId with
  | none => (.apiError .badRequest .ORGANIZATION_REFERENCE_ID_REQUIRED, db, [])
  | some referenceId =>
    match findByReference db.subs referenceId with
    | none => (.apiError .notFound .SUBSCRIPTION_NOT_FOUND, db, [])
    | some subscription =>
      match jsStr subscription.razorpaySubscriptionId with
      | none => (.apiError .notFound .SUBSCRIPTION_NOT_FOUND, db, [])
      | some _ =>
        if isCancelled subscription.status || isTerminal subscription.status then
          (.apiError .badRequest .SUBSCRIPTION_ALREADY_CANCELLED, db, [])
        else
          match remoteCancel with
          | .error _ =>
            (.apiError .internalServerError .SUBSCRIPTION_CANCEL_FAILED, db,
              [.remoteCall "subscriptions.cancel"])
          | .ok _ =>
            let cace := (body.cancelAtCycleEnd).getD false
            (.ok,
              { db with subs := updateById db.subs subscription.id (cancelUpdate cace now) },
              [.remoteCall "subscriptions.cancel"])

/-- POST /subscription/cancel: the referenceMiddleware followed by the
handler. -/
def cancelSubscription (opts : Options) (sess : SessionInfo) (body : CancelBody)
    (db : Db) (remoteCancel : Except String Unit) (now : Nat) :
    EndpointOutcome × Db × List Action :=
  match referenceMiddleware opts sess body.customerType body.referenceId
    "cancel-subscription" with
  | some err => (.apiError err.1 err.2, db, [])
  | none => cancelHandler sess body db remoteCancel now

/-! ### Supporting lemmas -/

/-- SHA-256 digests are exactly 32 bytes. -/
theorem sha256_length (msg : List Nat) : (sha256 msg).length = 32 := by
  simp [sha256, beBytes4]

/-- HMAC-SHA256 digests are exactly 32 bytes. -/
theorem hmacSha256_length (key msg : List Nat) : (hmacSha256 key msg).length = 32 := by
  simp [hmacSha256, sha256_length]

/-- Hex rendering doubles the byte count. -/
theorem bytesToHex_length (bs : List Nat) : (bytesToHex bs).length = 2 * bs.length := by
  induction bs with
  | nil => rfl
  | cons b rest ih =>
    simp only [bytesToHex, List.flatMap_cons, byteToHex] at *
    simp_all [String.length]
    omega

/-- The hex HMAC digest always has 64 characters. -/
theorem hmacSha256Hex_length (key msg : List Nat) :
    (hmacSha256Hex key msg).length = 64 := by
  simp [hmacSha256Hex, bytesToHex_length, hmacSha256_length]

/-- The hex HMAC digest is never the empty string. -/
theorem hmacSha256Hex_ne_empty (key msg : List Nat) : hmacSha256Hex key msg ≠ "" := by
  intro h
  have hl := hmacSha256Hex_length key msg
  rw [h] at hl
  simp at hl

/-- timingSafeEqual on two copies of one string reports equality. -/
theorem timingSafeEqual_self (s : String) : timingSafeEqual s s = .ok true := by
  simp [timingSafeEqual]

/-- Updating rows through a key-preserving function does not change which
row a razorpaySubscriptionId lookup returns, beyond applying the update
to it. -/
theorem findByRzpId_updateById (subs : List Subscription) (rid : String)
    (r : Subscription) (f : Subscription → Subscription)
    (hf : ∀ s, (f s).razorpaySubscriptionId = s.razorpaySubscriptionId)
    (h : findByRzpId subs rid = some r) :
    findByRzpId (updateById subs r.id f) rid = some (f r) := by
  induction subs with
  | nil => simp [findByRzpId] at h
  | cons s rest ih =>
    by_cases hs : s.razorpaySubscriptionId = some rid
    · rw [findByRzpId, List.find?_cons_of_pos _ (by simpa using hs)] at h
      obtain rfl : s = r := by simpa using h
      rw [findByRzpId, updateById, List.map_cons, if_pos rfl]
      exact List.find?_cons_of_pos _ (by simpa [hf] using hs)
    · rw [findByRzpId, List.find?_cons_of_neg _ (by simpa using hs)] at h
      rw [findByRzpId, updateById, List.map_cons,
        List.find?_cons_of_neg _ (by split <;> simpa [hf] using hs)]
      exact ih h

/-- Applying an id-preserving idempotent row update twice at one key is
the same as applying it once. -/
theorem updateById_idem (subs : List Subscription) (i : Nat)
    (f : Subscription → Subscription)
    (hid : ∀ s, (f s).id = s.id) (hff : ∀ s, f (f s) = f s) :
    updateById (updateById subs i f) i f = updateById subs i f := by
  simp only [updateById, List.map_map]
  refine List.map_congr_left fun s _ => ?_
  by_cases hs : s.id = i
  · simp [Function.comp, hs, hid, hff]
  · simp [Function.comp, hs]

/-- A lookup over an appended row list first consults the front rows. -/
theorem findByRzpId_append (l1 l2 : List Subscription) (rid : String) :
    findByRzpId (l1 ++ l2) rid =
      (findByRzpId l1 rid).or (findByRzpId l2 rid) := by
  simp [findByRzpId, List.find?_append]

/-- Row counting by provider key distributes over append. -/
theorem countByRzpId_append (l1 l2 : List Subscription) (rid : String) :
    countByRzpId (l1 ++ l2) rid = countByRzpId l1 rid + countByRzpId l2 rid := by
  simp [countByRzpId, List.filter_append]

/-- Key-preserving updates do not change the number of rows carrying a
provider key. -/
theorem countByRzpId_updateById (subs : List Subscription) (i : Nat) (rid : String)
    (f : Subscription → Subscription)
    (hf : ∀ s, (f s).razorpaySubscriptionId = s.razorpaySubscriptionId) :
    countByRzpId (updateById subs i f) rid = countByRzpId subs rid := by
  induction subs with
  | nil => rfl
  | cons s rest ih =>
    simp only [updateById, countByRzpId, List.map_cons, List.filter_cons] at *
    split <;> first
      | (simp only [hf]; split <;> simp_all)
      | (split <;> simp_all)

/-- Key-zero row counts mean the key lookup fails. -/
theorem findByRzpId_eq_none_of_count_zero (subs : List Subscription) (rid : String)
    (h : countByRzpId subs rid = 0) : findByRzpId subs rid = none := by
  rw [findByRzpId, List.find?_eq_none]
  intro s hs hkey
  have : s ∈ subs.filter fun s => decide (s.razorpaySubscriptionId = some rid) :=
    List.mem_filter.mpr ⟨hs, hkey⟩
  rw [countByRzpId, List.length_eq_zero] at h
  simp [h] at this

/-- An updateById has no effect on row count. -/
theorem length_updateById (subs : List Subscription) (i : Nat)
    (f : Subscription → Subscription) :
    (updateById subs i f).length = subs.length := by
  simp [updateById]

/-- A find? over a list whose every match equals one distinguished member
returns that member. -/
theorem find?_eq_of_unique {α : Type} (l : List α) (p : α → Bool) (a : α)
    (hmem : a ∈ l) (ha : p a = true) (huniq : ∀ b ∈ l, p b = true → b = a) :
    l.find? p = some a := by
  induction l with
  | nil => simp at hmem
  | cons b rest ih =>
    by_cases hb : p b = true
    · rw [List.find?_cons_of_pos _ hb]
      exact congrArg some (huniq b (List.mem_cons_self b rest) hb)
    · rw [List.find?_cons_of_neg _ (by simpa using hb)]
      rcases List.mem_cons.mp hmem with rfl | hrest
      · exact absurd ha hb
      · exact ih hrest fun c hc => huniq c (List.mem_cons_of_mem b hc)

/-- Every row of an updateById result comes from a source row, updated
when its id matches. -/
theorem mem_updateById (subs : List Subscription) (i : Nat)
    (f : Subscription → Subscription) (s : Subscription)
    (h : s ∈ updateById subs i f) :
    ∃ s0 ∈ subs, s = if s0.id = i then f s0 else s0 := by
  rcases List.mem_map.mp h with ⟨s0, hs0, hmap⟩
  exact ⟨s0, hs0, hmap.symm⟩

/-- jsStr keeps a nonempty string. -/
theorem jsStr_of_ne (s : String) (h : s ≠ "") : jsStr (some s) = some s := by
  simp [jsStr, h]

/-- A nonempty list is not isEmpty. -/
theorem isEmpty_false_of_ne {α : Type} (l : List α) (h : l ≠ []) :
    l.isEmpty = false := by
  cases l with
  | nil => exact absurd rfl h
  | cons a t => rfl

/-- The activated overwrite never touches the local primary key. -/
theorem activatedUpdate_id (z : RzpSubEntity) (plan? : Option RazorpayPlan)
    (now : Nat) (s : Subscription) : (activatedUpdate z plan? now s).id = s.id := rfl

/-- The activated overwrite never touches the provider subscription id. -/
theorem activatedUpdate_key (z : RzpSubEntity) (plan? : Option RazorpayPlan)
    (now : Nat) (s : Subscription) :
    (activatedUpdate z plan? now s).razorpaySubscriptionId = s.razorpaySubscriptionId := rfl

/-- The activated overwrite is idempotent on a row. -/
theorem activatedUpdate_idem (z : RzpSubEntity) (plan? : Option RazorpayPlan)
    (now : Nat) (s : Subscription) :
    activatedUpdate z plan? now (activatedUpdate z plan? now s) =
      activatedUpdate z plan? now s := by
  cases plan? <;> rfl

/-- Equation for the activated handler when the provider key matches an
existing row. -/
theorem onSubscriptionActivated_found (opts : Options) (db : Db) (ev : RzpEvent)
    (now : Nat) (z : RzpSubEntity) (s : Subscription)
    (hen : opts.subscriptionEnabled = true) (hev : ev.subscription = some z)
    (hfind : findByRzpId db.subs z.id = some s) :
    onSubscriptionActivated opts db ev now =
      { db with subs := (updateById db.subs s.id
          (activatedUpdate z (getPlanByPlanId opts.plans z.plan_id) now)) } := by
  simp [onSubscriptionActivated, hen, hev, hfind]

/-- Equation for the activated handler on its orphan path with a resolved
reference. -/
theorem onSubscriptionActivated_orphan (opts : Options) (db : Db) (ev : RzpEvent)
    (now : Nat) (z : RzpSubEntity) (refId : String)
    (hen : opts.subscriptionEnabled = true) (hev : ev.subscription = some z)
    (hfind : findByRzpId db.subs z.id = none)
    (hres : resolveReference db opts z = some refId) :
    onSubscriptionActivated opts db ev now =
      { db with
        nextId := db.nextId + 1
        subs := db.subs ++ [activatedCreateRow z (getPlanByPlanId opts.plans z.plan_id)
          refId db.nextId now] } := by
  simp [onSubscriptionActivated, hen, hev, hfind, hres]

/-- The freshly created activated row is a fixed point of the activated
overwrite, provided a matched plan has a nonempty lower-cased name. -/
theorem activatedCreateRow_fixed (z : RzpSubEntity) (plan? : Option RazorpayPlan)
    (refId : String) (i : Nat) (now : Nat)
    (h : ∀ p, plan? = some p → ¬ strToLower p.name = "") :
    activatedUpdate z plan? now (activatedCreateRow z plan? refId i now) =
      activatedCreateRow z plan? refId i now := by
  cases plan? with
  | none => rfl
  | some p =>
    have hp := h p rfl
    simp [activatedUpdate, activatedCreateRow, planNameOr, hp]

/-- When local primary keys identify rows uniquely, an updateById at a
member row is observed exactly at that row by a primary-key lookup. -/
theorem getById_updateById_of_unique (subs : List Subscription) (r : Subscription)
    (f : Subscription → Subscription) (hmem : r ∈ subs)
    (huniq : ∀ s ∈ subs, s.id = r.id → s = r)
    (hid : ∀ s, (f s).id = s.id) :
    getById (updateById subs r.id f) r.id = some (f r) := by
  induction subs with
  | nil => simp at hmem
  | cons s rest ih =>
    by_cases hs : s.id = r.id
    · have heq : s = r := huniq s (List.mem_cons_self s rest) hs
      subst heq
      rw [updateById, List.map_cons, if_pos hs, getById,
        List.find?_cons_of_pos _ (by simp [hid, hs])]
    · rw [updateById, List.map_cons, if_neg hs, getById,
        List.find?_cons_of_neg _ (by simpa using hs)]
      have hmem' : r ∈ rest := by
        rcases List.mem_cons.mp hmem with rfl | h
        · exact absurd rfl hs
        · exact h
      exact ih hmem' fun s0 h0 hid0 => huniq s0 (List.mem_cons_of_mem _ h0) hid0

/-! ### Claim theorems -/

/-- C2 evaluation at the failing input: with secret "sec" and a
provided signature "x" whose length differs from the 64-character hex
digest, the webhook endpoint does not answer with a client error; the
modelled crypto.timingSafeEqual throws a RangeError that escapes the
endpoint uncaught.  This contradicts the claim that any signature
mismatch, in content or in length, evaluates to false without throwing
and yields a client-error response. -/
theorem webhook_throws_on_length_mismatch :
    razorpayWebhook { razorpayWebhookSecret := [115, 101, 99] } {}
      { signatureHeader := some "x", rawBody := [123, 125] } 0 =
    (.uncaught "RangeError: input buffers must have the same byte length", {}, []) := by
  simp only [razorpayWebhook]
  generalize hd : hmacSha256Hex [115, 101, 99] [123, 125] = d
  have h64 : d.length = 64 := hd ▸ hmacSha256Hex_length [115, 101, 99] [123, 125]
  have hx : ("x" : String).length = 1 := rfl
  simp [jsStr, timingSafeEqual, h64, hx]

/-- C1 counterexample: at a concrete verified and parseable request whose
configured onEvent observer rejects, the endpoint outcome is an uncaught
rejection, not the success acknowledgment — so an observer rejection does
prevent the acknowledgment; and with a resolving observer the action trace
places the observer call before the type-specific handler call, not after
it. -/
theorem webhook_onEvent_claim_counterexample :
    (razorpayWebhook { razorpayWebhookSecret := [107], onEvent := some true } {}
        { signatureHeader := some (hmacSha256Hex [107] [123, 125])
          rawBody := [123, 125]
          parsedEvent := some { event := "subscription.activated" } } 0).1 =
      .uncaught "onEvent rejection" ∧
    (razorpayWebhook { razorpayWebhookSecret := [107], onEvent := some false } {}
        { signatureHeader := some (hmacSha256Hex [107] [123, 125])
          rawBody := [123, 125]
          parsedEvent := some { event := "subscription.activated" } } 0).2.2 =
      [.callOnEvent, .callHandler "subscription.activated"] := by
  have hne := hmacSha256Hex_ne_empty [107] [123, 125]
  constructor <;>
    simp [razorpayWebhook, jsStr_of_ne _ hne, timingSafeEqual_self, dispatchEvent,
      onSubscriptionActivated]

/-- C1 amended: for every webhook request that passes signature
verification and JSON parsing, the optional global observer onEvent is
invoked before the type-specific event handler; when the observer
resolves, the endpoint returns the success acknowledgment regardless of
the dispatch outcome, with the observer call first in the action trace;
when the observer rejects, the rejection escapes uncaught, the handler is
never dispatched, and the endpoint does not return its success
acknowledgment. -/
theorem webhook_onEvent_order_and_propagation
    (opts : Options) (db : Db) (req : WebhookRequest) (now : Nat) (ev : RzpEvent)
    (hsecret : opts.razorpayWebhookSecret ≠ [])
    (hsig : req.signatureHeader =
      some (hmacSha256Hex opts.razorpayWebhookSecret req.rawBody))
    (hparse : req.parsedEvent = some ev) :
    (opts.onEvent = some false →
      razorpayWebhook opts db req now =
        (.received, (dispatchEvent opts db ev now).1,
          .callOnEvent :: (dispatchEvent opts db ev now).2)) ∧
    (opts.onEvent = some true →
      razorpayWebhook opts db req now =
        (.uncaught "onEvent rejection", db, [.callOnEvent])) := by
  have hne := hmacSha256Hex_ne_empty opts.razorpayWebhookSecret req.rawBody
  have hie := isEmpty_false_of_ne _ hsecret
  constructor <;> intro hoe <;>
    simp [razorpayWebhook, hie, hsig, hparse, hoe, jsStr_of_ne _ hne,
      timingSafeEqual_self]

/-- C1 amended witness at a concrete request with a resolving observer. -/
theorem webhook_onEvent_order_and_propagation_witness :
    razorpayWebhook { razorpayWebhookSecret := [107], onEvent := some false } {}
        { signatureHeader := some (hmacSha256Hex [107] [123, 125])
          rawBody := [123, 125]
          parsedEvent := some { event := "subscription.charged" } } 3 =
      (.received,
        (dispatchEvent { razorpayWebhookSecret := [107], onEvent := some false } {}
          { event := "subscription.charged" } 3).1,
        .callOnEvent ::
          (dispatchEvent { razorpayWebhookSecret := [107], onEvent := some false } {}
            { event := "subscription.charged" } 3).2) :=
  (webhook_onEvent_order_and_propagation
    { razorpayWebhookSecret := [107], onEvent := some false } {}
    { signatureHeader := some (hmacSha256Hex [107] [123, 125])
      rawBody := [123, 125]
      parsedEvent := some { event := "subscription.charged" } } 3
    { event := "subscription.charged" } (by decide) rfl rfl).1 rfl

/-- C3: reconciliation of a subscription.activated event is idempotent:
for every persistence state with adapter-consistent row ids, every event
and every delivery time, delivering the identical activated event twice
produces exactly the same final state as delivering it once — no counter
double-incremented and no field, timestamps included, overwritten with a
different value on replay — provided every configured plan has a nonempty
lower-cased name. -/
theorem onSubscriptionActivated_idempotent
    (opts : Options) (db : Db) (ev : RzpEvent) (now : Nat)
    (hwf : ∀ r ∈ db.subs, r.id < db.nextId)
    (hplans : ∀ p ∈ opts.plans, ¬ strToLower p.name = "") :
    onSubscriptionActivated opts (onSubscriptionActivated opts db ev now) ev now =
      onSubscriptionActivated opts db ev now := by
  cases hen : opts.subscriptionEnabled with
  | false => simp [onSubscriptionActivated, hen]
  | true =>
    cases hev : ev.subscription with
    | none => simp [onSubscriptionActivated, hen, hev]
    | some z =>
      cases hfind : findByRzpId db.subs z.id with
      | some s =>
        rw [onSubscriptionActivated_found opts db ev now z s hen hev hfind]
        have h2 : findByRzpId (updateById db.subs s.id
            (activatedUpdate z (getPlanByPlanId opts.plans z.plan_id) now)) z.id =
            some (activatedUpdate z (getPlanByPlanId opts.plans z.plan_id) now s) :=
          findByRzpId_updateById db.subs z.id s _ (fun _ => rfl) hfind
        rw [onSubscriptionActivated_found opts _ ev now z _ hen hev h2]
        congr 1
        rw [activatedUpdate_id]
        exact updateById_idem _ _ _ (fun s0 => activatedUpdate_id z _ now s0)
          (fun s0 => activatedUpdate_idem z _ now s0)
      | none =>
        cases hres : resolveReference db opts z with
        | none =>
          have h1 : onSubscriptionActivated opts db ev now = db := by
            simp [onSubscriptionActivated, hen, hev, hfind, hres]
          rw [h1]
          exact h1
        | some refId =>
          rw [onSubscriptionActivated_orphan opts db ev now z refId hen hev hfind hres]
          have hfound : findByRzpId (db.subs ++ [activatedCreateRow z
              (getPlanByPlanId opts.plans z.plan_id) refId db.nextId now]) z.id =
              some (activatedCreateRow z (getPlanByPlanId opts.plans z.plan_id)
                refId db.nextId now) := by
            rw [findByRzpId_append, hfind]
            simp [findByRzpId, activatedCreateRow]
          rw [onSubscriptionActivated_found opts _ ev now z _ hen hev hfound]
          congr 1
          unfold updateById
          rw [List.map_append]
          have hfix : activatedUpdate z (getPlanByPlanId opts.plans z.plan_id) now
              (activatedCreateRow z (getPlanByPlanId opts.plans z.plan_id)
                refId db.nextId now) =
              activatedCreateRow z (getPlanByPlanId opts.plans z.plan_id)
                refId db.nextId now := by
            refine activatedCreateRow_fixed z _ refId db.nextId now fun p hpp => ?_
            exact hplans p (List.mem_of_find?_eq_some (by simpa [getPlanByPlanId] using hpp))
          congr 1
          · conv_rhs => rw [← List.map_id db.subs]
            refine List.map_congr_left fun r hr => ?_
            have hne : ¬ r.id = (activatedCreateRow z
                (getPlanByPlanId opts.plans z.plan_id) refId db.nextId now).id :=
              Nat.ne_of_lt (hwf r hr)
            simp [hne]
          · simp [hfix]

/-- C3 witness: a concrete empty-state delivery of an activated event. -/
theorem onSubscriptionActivated_idempotent_witness :
    onSubscriptionActivated
      { plans := [{ planId := "plan_p", name := "Pro" }] }
      (onSubscriptionActivated
        { plans := [{ planId := "plan_p", name := "Pro" }] }
        { users := [("cust_1", "u1")] }
        { event := "subscription.activated"
          subscription := some {
            id := "sub_1"
            plan_id := "plan_p"
            customer_id := some "cust_1" } } 7)
      { event := "subscription.activated"
        subscription := some {
          id := "sub_1"
          plan_id := "plan_p"
          customer_id := some "cust_1" } } 7 =
    onSubscriptionActivated
      { plans := [{ planId := "plan_p", name := "Pro" }] }
      { users := [("cust_1", "u1")] }
      { event := "subscription.activated"
        subscription := some {
          id := "sub_1"
          plan_id := "plan_p"
          customer_id := some "cust_1" } } 7 :=
  onSubscriptionActivated_idempotent
    { plans := [{ planId := "plan_p", name := "Pro" }] }
    { users := [("cust_1", "u1")] }
    { event := "subscription.activated"
      subscription := some {
        id := "sub_1"
        plan_id := "plan_p"
        customer_id := some "cust_1" } } 7
    (by simp) (by decide)

/-- C4: a subscription.activated event whose provider subscription id
matches no local row and whose reference resolves creates exactly one new
local row carrying that provider id; delivering the identical event a
second time (at any later clock reading) creates no second row, so the
provider subscription id stays unique across all local rows. -/
theorem onSubscriptionActivated_orphan_unique
    (opts : Options) (db : Db) (ev : RzpEvent) (now t2 : Nat) (z : RzpSubEntity)
    (refId : String)
    (hen : opts.subscriptionEnabled = true)
    (hev : ev.subscription = some z)
    (hcount : countByRzpId db.subs z.id = 0)
    (hres : resolveReference db opts z = some refId) :
    countByRzpId (onSubscriptionActivated opts db ev now).subs z.id = 1 ∧
    (onSubscriptionActivated opts db ev now).subs.length = db.subs.length + 1 ∧
    countByRzpId (onSubscriptionActivated opts
      (onSubscriptionActivated opts db ev now) ev t2).subs z.id = 1 ∧
    (onSubscriptionActivated opts
      (onSubscriptionActivated opts db ev now) ev t2).subs.length =
      db.subs.length + 1 := by
  have hfind := findByRzpId_eq_none_of_count_zero db.subs z.id hcount
  rw [onSubscriptionActivated_orphan opts db ev now z refId hen hev hfind hres]
  set row : Subscription := activatedCreateRow z (getPlanByPlanId opts.plans z.plan_id)
    refId db.nextId now with hrow
  have hkey : row.razorpaySubscriptionId = some z.id := rfl
  have hc1 : countByRzpId (db.subs ++ [row]) z.id = 1 := by
    rw [countByRzpId_append, hcount]
    simp [countByRzpId, hkey]
  have hfound : findByRzpId (db.subs ++ [row]) z.id = some row := by
    rw [findByRzpId_append, hfind]
    simp [findByRzpId, hkey]
  rw [onSubscriptionActivated_found opts _ ev t2 z row hen hev hfound]
  refine ⟨hc1, by simp, ?_, ?_⟩
  · show countByRzpId (updateById (db.subs ++ [row]) row.id
      (activatedUpdate z (getPlanByPlanId opts.plans z.plan_id) t2)) z.id = 1
    rw [countByRzpId_updateById (db.subs ++ [row]) row.id z.id
      (activatedUpdate z (getPlanByPlanId opts.plans z.plan_id) t2)
      (fun s0 => activatedUpdate_key z _ t2 s0)]
    exact hc1
  · show (updateById (db.subs ++ [row]) row.id
      (activatedUpdate z (getPlanByPlanId opts.plans z.plan_id) t2)).length =
      db.subs.length + 1
    rw [length_updateById]
    simp

/-- C4 witness at a concrete orphan event. -/
theorem onSubscriptionActivated_orphan_unique_witness :
    countByRzpId (onSubscriptionActivated { plans := [] }
      { users := [("cust_1", "u1")] }
      { event := "subscription.activated"
        subscription := some {
          id := "sub_9"
          plan_id := "plan_q"
          customer_id := some "cust_1" } } 4).subs "sub_9" = 1 ∧
    (onSubscriptionActivated { plans := [] } { users := [("cust_1", "u1")] }
      { event := "subscription.activated"
        subscription := some {
          id := "sub_9"
          plan_id := "plan_q"
          customer_id := some "cust_1" } } 4).subs.length = 0 + 1 ∧
    countByRzpId (onSubscriptionActivated { plans := [] }
      (onSubscriptionActivated { plans := [] } { users := [("cust_1", "u1")] }
        { event := "subscription.activated"
          subscription := some {
            id := "sub_9"
            plan_id := "plan_q"
            customer_id := some "cust_1" } } 4)
      { event := "subscription.activated"
        subscription := some {
          id := "sub_9"
          plan_id := "plan_q"
          customer_id := some "cust_1" } } 9).subs "sub_9" = 1 ∧
    (onSubscriptionActivated { plans := [] }
      (onSubscriptionActivated { plans := [] } { users := [("cust_1", "u1")] }
        { event := "subscription.activated"
          subscription := some {
            id := "sub_9"
            plan_id := "plan_q"
            customer_id := some "cust_1" } } 4)
      { event := "subscription.activated"
        subscription := some {
          id := "sub_9"
          plan_id := "plan_q"
          customer_id := some "cust_1" } } 9).subs.length = 0 + 1 :=
  onSubscriptionActivated_orphan_unique { plans := [] }
    { users := [("cust_1", "u1")] }
    { event := "subscription.activated"
      subscription := some {
        id := "sub_9"
        plan_id := "plan_q"
        customer_id := some "cust_1" } } 4 9
    { id := "sub_9", plan_id := "plan_q", customer_id := some "cust_1" }
    "u1" rfl rfl (by decide) (by decide)

/-- C5: applying a subscription.completed event and then a
subscription.activated event for the same provider subscription id leaves
the matched local record with status active (last-write-wins); both
handlers are total functions in this embedding because the source wraps
each handler body in a catch that only logs. -/
theorem completed_then_activated_yields_active
    (opts : Options) (db : Db) (e1 e2 : RzpEvent) (t1 t2 : Nat)
    (z1 z2 : RzpSubEntity) (rid : String) (r : Subscription)
    (hen : opts.subscriptionEnabled = true)
    (he1 : e1.subscription = some z1) (he2 : e2.subscription = some z2)
    (hz1 : z1.id = rid) (hz2 : z2.id = rid)
    (hfind : findByRzpId db.subs rid = some r) :
    ∃ r2, findByRzpId (onSubscriptionActivated opts
        (onSubscriptionCompleted opts db e1 t1) e2 t2).subs rid = some r2 ∧
      r2.status = .active := by
  subst hz1
  have h1 : onSubscriptionCompleted opts db e1 t1 =
      { db with subs := (updateById db.subs r.id (completedUpdate z1 t1)) } := by
    simp [onSubscriptionCompleted, hen, he1, hfind]
  rw [h1]
  have h2 : findByRzpId (updateById db.subs r.id (completedUpdate z1 t1)) z2.id =
      some (completedUpdate z1 t1 r) := by
    rw [hz2]
    exact findByRzpId_updateById db.subs z1.id r _ (fun _ => rfl) hfind
  rw [onSubscriptionActivated_found opts _ e2 t2 z2 _ hen he2 h2]
  refine ⟨activatedUpdate z2 (getPlanByPlanId opts.plans z2.plan_id) t2
    (completedUpdate z1 t1 r), ?_, rfl⟩
  show findByRzpId (updateById (updateById db.subs r.id (completedUpdate z1 t1))
      (completedUpdate z1 t1 r).id
      (activatedUpdate z2 (getPlanByPlanId opts.plans z2.plan_id) t2)) z1.id =
    some (activatedUpdate z2 (getPlanByPlanId opts.plans z2.plan_id) t2
      (completedUpdate z1 t1 r))
  rw [← hz2]
  exact findByRzpId_updateById _ z2.id (completedUpdate z1 t1 r) _ (fun _ => rfl) h2

/-- C5 witness at a concrete one-row state. -/
theorem completed_then_activated_yields_active_witness :
    ∃ r2, findByRzpId (onSubscriptionActivated { plans := [] }
        (onSubscriptionCompleted { plans := [] }
          { nextId := 1
            subs := [{
              id := 0
              plan := "pro"
              referenceId := "u1"
              razorpaySubscriptionId := some "sub_1"
              status := .active }] }
          { event := "subscription.completed"
            subscription := some { id := "sub_1", plan_id := "plan_p" } } 2)
        { event := "subscription.activated"
          subscription := some { id := "sub_1", plan_id := "plan_p" } } 3).subs
      "sub_1" = some r2 ∧ r2.status = .active :=
  completed_then_activated_yields_active { plans := [] }
    { nextId := 1
      subs := [{
        id := 0
        plan := "pro"
        referenceId := "u1"
        razorpaySubscriptionId := some "sub_1"
        status := .active }] }
    { event := "subscription.completed"
      subscription := some { id := "sub_1", plan_id := "plan_p" } }
    { event := "subscription.activated"
      subscription := some { id := "sub_1", plan_id := "plan_p" } }
    2 3 { id := "sub_1", plan_id := "plan_p" } { id := "sub_1", plan_id := "plan_p" }
    "sub_1"
    { id := 0
      plan := "pro"
      referenceId := "u1"
      razorpaySubscriptionId := some "sub_1"
      status := .active }
    rfl rfl rfl rfl rfl (by decide)

/-- C6: a cancel-endpoint call with cancelAtCycleEnd true on a
non-terminal subscription that has a provider subscription id succeeds
and updates only the cancelAtCycleEnd flag (and the bookkeeping
updatedAt): status and every other lifecycle field keep their prior
values; a later subscription.cancelled webhook for the same provider id
then overwrites status to cancelled and sets cancelledAt and endedAt. -/
theorem cancel_at_cycle_end_frame_then_webhook
    (opts : Options) (sess : SessionInfo) (body : CancelBody) (db : Db)
    (r : Subscription) (ev2 : RzpEvent) (z2 : RzpSubEntity) (t1 t2 : Nat)
    (hen : opts.subscriptionEnabled = true)
    (huid : ¬ sess.userId = "")
    (hb1 : body.referenceId = none) (hb2 : body.customerType = none)
    (hb3 : body.cancelAtCycleEnd = some true)
    (hfind : findByReference db.subs sess.userId = some r)
    (hkey : r.razorpaySubscriptionId = some z2.id)
    (hridne : ¬ z2.id = "")
    (hnc : isCancelled r.status = false) (hnt : isTerminal r.status = false)
    (hiduniq : ∀ s ∈ db.subs, s.id = r.id → s = r)
    (hkeyuniq : ∀ s ∈ db.subs, s.razorpaySubscriptionId = some z2.id → s = r)
    (he2 : ev2.subscription = some z2) :
    (cancelSubscription opts sess body db (.ok ()) t1).1 = .ok ∧
    (∃ r1, getById (cancelSubscription opts sess body db (.ok ()) t1).2.1.subs
        r.id = some r1 ∧
      r1.cancelAtCycleEnd = some true ∧
      r1.status = r.status ∧ r1.plan = r.plan ∧ r1.referenceId = r.referenceId ∧
      r1.razorpayCustomerId = r.razorpayCustomerId ∧
      r1.razorpaySubscriptionId = r.razorpaySubscriptionId ∧
      r1.razorpayPlanId = r.razorpayPlanId ∧
      r1.currentStart = r.currentStart ∧ r1.currentEnd = r.currentEnd ∧
      r1.endedAt = r.endedAt ∧ r1.cancelledAt = r.cancelledAt ∧
      r1.pausedAt = r.pausedAt ∧ r1.quantity = r.quantity ∧
      r1.totalCount = r.totalCount ∧ r1.paidCount = r.paidCount ∧
      r1.remainingCount = r.remainingCount ∧ r1.shortUrl = r.shortUrl ∧
      r1.groupId = r.groupId) ∧
    (∃ r2, getById (onSubscriptionCancelled opts
        (cancelSubscription opts sess body db (.ok ()) t1).2.1 ev2 t2).subs
        r.id = some r2 ∧
      r2.status = .cancelled ∧ r2.cancelledAt = some t2 ∧
      r2.endedAt = some ((timestampToDate z2.ended_at).getD t2)) := by
  have hmem : r ∈ db.subs := List.mem_of_find?_eq_some hfind
  have h1 : cancelSubscription opts sess body db (.ok ()) t1 =
      (.ok, { db with subs := (updateById db.subs r.id (cancelUpdate true t1)) },
        [.remoteCall "subscriptions.cancel"]) := by
    simp [cancelSubscription, referenceMiddleware, cancelHandler,
      resolveActionReferenceId, hb1, hb2, hb3, hfind, hkey, hnc, hnt,
      jsStr, huid, hridne]
  rw [h1]
  have hcid : ∀ s : Subscription, (cancelUpdate true t1 s).id = s.id := fun _ => rfl
  have hg1 : getById (updateById db.subs r.id (cancelUpdate true t1)) r.id =
      some (cancelUpdate true t1 r) :=
    getById_updateById_of_unique db.subs r (cancelUpdate true t1) hmem hiduniq hcid
  refine ⟨rfl, ⟨cancelUpdate true t1 r, hg1, rfl, rfl, rfl, rfl, rfl, rfl, rfl,
    rfl, rfl, rfl, rfl, rfl, rfl, rfl, rfl, rfl, rfl, rfl⟩, ?_⟩
  have hmem1 : cancelUpdate true t1 r ∈ updateById db.subs r.id (cancelUpdate true t1) := by
    have := List.mem_map_of_mem (fun s =>
      if s.id = r.id then cancelUpdate true t1 s else s) hmem
    simpa [updateById] using this
  have hkey1 : (cancelUpdate true t1 r).razorpaySubscriptionId = some z2.id := hkey
  have hkeyuniq1 : ∀ s ∈ updateById db.subs r.id (cancelUpdate true t1),
      s.razorpaySubscriptionId = some z2.id → s = cancelUpdate true t1 r := by
    intro s hs hsk
    rcases mem_updateById db.subs r.id (cancelUpdate true t1) s hs with ⟨s0, hs0, hcase⟩
    by_cases h0 : s0.id = r.id
    · rw [hiduniq s0 hs0 h0] at hcase
      simpa using hcase
    · rw [if_neg h0] at hcase
      subst hcase
      exact absurd (congrArg Subscription.id (hkeyuniq s hs0 hsk)) h0
  have hfound2 : findByRzpId (updateById db.subs r.id (cancelUpdate true t1)) z2.id =
      some (cancelUpdate true t1 r) :=
    find?_eq_of_unique _ _ _ hmem1 (by simp [hkey1])
      fun b hb hpb => hkeyuniq1 b hb (by simpa using hpb)
  show ∃ r2, getById (onSubscriptionCancelled opts
      { db with subs := (updateById db.subs r.id (cancelUpdate true t1)) } ev2 t2).subs
      r.id = some r2 ∧ r2.status = .cancelled ∧ r2.cancelledAt = some t2 ∧
      r2.endedAt = some ((timestampToDate z2.ended_at).getD t2)
  have h2 : onSubscriptionCancelled opts
      { db with subs := (updateById db.subs r.id (cancelUpdate true t1)) } ev2 t2 =
      { db with subs := (updateById (updateById db.subs r.id (cancelUpdate true t1))
          (cancelUpdate true t1 r).id (cancelledUpdate z2 t2)) } := by
    simp [onSubscriptionCancelled, hen, he2, hfound2]
  rw [h2]
  have huniq1 : ∀ s ∈ updateById db.subs r.id (cancelUpdate true t1),
      s.id = (cancelUpdate true t1 r).id → s = cancelUpdate true t1 r := by
    intro s hs hsid
    rcases mem_updateById db.subs r.id (cancelUpdate true t1) s hs with ⟨s0, hs0, hcase⟩
    by_cases h0 : s0.id = r.id
    · rw [hiduniq s0 hs0 h0] at hcase
      simpa using hcase
    · rw [if_neg h0] at hcase
      subst hcase
      exact absurd hsid h0
  have hg2 := getById_updateById_of_unique
    (updateById db.subs r.id (cancelUpdate true t1)) (cancelUpdate true t1 r)
    (cancelledUpdate z2 t2) hmem1 huniq1 (fun _ => rfl)
  exact ⟨cancelledUpdate z2 t2 (cancelUpdate true t1 r), hg2, rfl, rfl, rfl⟩

/-- C6 witness at a concrete one-row active subscription. -/
theorem cancel_at_cycle_end_frame_then_webhook_witness :
    (cancelSubscription {} { userId := "u1" } { cancelAtCycleEnd := some true }
      { nextId := 1
        subs := [{
          id := 0
          plan := "pro"
          referenceId := "u1"
          razorpaySubscriptionId := some "sub_1"
          status := .active }] } (.ok ()) 5).1 = .ok ∧
    (∃ r1, getById (cancelSubscription {} { userId := "u1" }
        { cancelAtCycleEnd := some true }
        { nextId := 1
          subs := [{
            id := 0
            plan := "pro"
            referenceId := "u1"
            razorpaySubscriptionId := some "sub_1"
            status := .active }] } (.ok ()) 5).2.1.subs 0 = some r1 ∧
      r1.cancelAtCycleEnd = some true ∧
      r1.status = SubStatus.active ∧ r1.plan = "pro" ∧ r1.referenceId = "u1" ∧
      r1.razorpayCustomerId = none ∧
      r1.razorpaySubscriptionId = some "sub_1" ∧
      r1.razorpayPlanId = none ∧
      r1.currentStart = none ∧ r1.currentEnd = none ∧
      r1.endedAt = none ∧ r1.cancelledAt = none ∧
      r1.pausedAt = none ∧ r1.quantity = none ∧
      r1.totalCount = none ∧ r1.paidCount = none ∧
      r1.remainingCount = none ∧ r1.shortUrl = none ∧
      r1.groupId = none) ∧
    (∃ r2, getById (onSubscriptionCancelled {}
        (cancelSubscription {} { userId := "u1" } { cancelAtCycleEnd := some true }
          { nextId := 1
            subs := [{
              id := 0
              plan := "pro"
              referenceId := "u1"
              razorpaySubscriptionId := some "sub_1"
              status := .active }] } (.ok ()) 5).2.1
        { event := "subscription.cancelled"
          subscription := some { id := "sub_1", plan_id := "plan_p", ended_at := some 11 } }
        7).subs 0 = some r2 ∧
      r2.status = .cancelled ∧ r2.cancelledAt = some 7 ∧
      r2.endedAt = some ((timestampToDate (some 11)).getD 7)) :=
  cancel_at_cycle_end_frame_then_webhook {} { userId := "u1" }
    { cancelAtCycleEnd := some true }
    { nextId := 1
      subs := [{
        id := 0
        plan := "pro"
        referenceId := "u1"
        razorpaySubscriptionId := some "sub_1"
        status := .active }] }
    { id := 0
      plan := "pro"
      referenceId := "u1"
      razorpaySubscriptionId := some "sub_1"
      status := .active }
    { event := "subscription.cancelled"
      subscription := some { id := "sub_1", plan_id := "plan_p", ended_at := some 11 } }
    { id := "sub_1", plan_id := "plan_p", ended_at := some 11 } 5 7
    rfl (by decide) rfl rfl rfl (by decide) rfl (by decide) (by decide) (by decide)
    (by decide) (by decide) rfl

/-- Equation for the upgrade remote phase on a failed provider call: the
speculatively created row is deleted again, leaving the rows unchanged
(only the id allocator has advanced), and the generic update-failed error
is thrown after the one remote call. -/
theorem upgradeRemotePhase_error (plan : RazorpayPlan) (refId cid : String)
    (body : UpgradeBody) (db : Db) (msg : String) (now : Nat)
    (hwf : ∀ r ∈ db.subs, r.id < db.nextId) :
    upgradeRemotePhase plan refId cid body db (.error msg) now =
      (.apiError .internalServerError .SUBSCRIPTION_UPDATE_FAILED,
        { db with nextId := db.nextId + 1, subs := db.subs },
        [.remoteCall "subscriptions.create"]) := by
  have hfil : (db.subs ++ [upgradeCreateRow plan refId cid body db.nextId]).filter
      (fun s => !(decide (s.id = (upgradeCreateRow plan refId cid body db.nextId).id)))
      = db.subs := by
    have hid : (upgradeCreateRow plan refId cid body db.nextId).id = db.nextId := rfl
    rw [hid, List.filter_append,
      List.filter_eq_self.mpr fun r hr => by simp [Nat.ne_of_lt (hwf r hr)]]
    simp [upgradeCreateRow]
  simp only [upgradeRemotePhase]
  rw [hfil]

/-- C7: when the remote subscription-creation call fails during an
upgrade, the local row speculatively created beforehand is rolled back
(deleted), so the subscription rows are exactly as before the call (only
the adapter id allocator has advanced), and the caller receives the
update-failed error response after the single remote call. -/
theorem upgrade_remote_failure_rolls_back
    (opts : Options) (sess : SessionInfo) (body : UpgradeBody) (db : Db)
    (plan : RazorpayPlan) (cid msg : String) (now : Nat)
    (hb1 : body.referenceId = none) (hb2 : body.customerType = none)
    (hemail : (opts.requireEmailVerification && !sess.userEmailVerified) = false)
    (hplan : opts.plans.find?
      (fun p => decide (strToLower p.name = strToLower body.plan)) = some plan)
    (huid : ¬ sess.userId = "")
    (hcid : jsStr sess.userRazorpayCustomerId = some cid)
    (hactive : ∀ a, upgradeActiveSub db plan sess.userId = some a →
      ¬ a.plan = strToLower plan.name)
    (hwf : ∀ r ∈ db.subs, r.id < db.nextId) :
    upgradeSubscription opts sess body db (.error msg) now =
      (.apiError .internalServerError .SUBSCRIPTION_UPDATE_FAILED,
        { db with nextId := db.nextId + 1, subs := db.subs },
        [.remoteCall "subscriptions.create"]) := by
  have hmid : referenceMiddleware opts sess body.customerType body.referenceId
      "upgrade-subscription" = none := by
    simp [referenceMiddleware, hb1, hb2, jsStr]
  have href : resolveActionReferenceId sess body.customerType body.referenceId =
      some sess.userId := by
    simp [resolveActionReferenceId, hb1, hb2, jsStr, huid]
  rw [upgradeSubscription, hmid]
  rw [upgradeHandler, hemail]
  simp only [Bool.false_eq_true, if_false, hplan, href, hcid]
  cases hact : upgradeActiveSub db plan sess.userId with
  | none =>
    simp only
    exact upgradeRemotePhase_error plan sess.userId cid body db msg now hwf
  | some a =>
    simp only
    rw [if_neg (hactive a hact)]
    exact upgradeRemotePhase_error plan sess.userId cid body db msg now hwf

/-- C7 witness at a concrete empty state with a failing remote call. -/
theorem upgrade_remote_failure_rolls_back_witness :
    upgradeSubscription { plans := [{ planId := "plan_p", name := "pro" }] }
      { userId := "u1", userRazorpayCustomerId := some "cust_1" }
      { plan := "pro" } {} (.error "gateway down") 5 =
      (.apiError .internalServerError .SUBSCRIPTION_UPDATE_FAILED,
        { (({} : Db)) with nextId := ({} : Db).nextId + 1, subs := ({} : Db).subs },
        [.remoteCall "subscriptions.create"]) :=
  upgrade_remote_failure_rolls_back { plans := [{ planId := "plan_p", name := "pro" }] }
    { userId := "u1", userRazorpayCustomerId := some "cust_1" }
    { plan := "pro" } {} { planId := "plan_p", name := "pro" } "cust_1"
    "gateway down" 5 rfl rfl rfl (by decide) (by decide) rfl
    (fun a ha => by simp [upgradeActiveSub, upgradeExistingSubs] at ha) (by simp)

/-- C8: an upgrade request carrying an explicit referenceId different from
the authenticated user id while no authorizeReference hook is configured
is rejected by the reference middleware with a 400-class error before the
handler runs: no remote call is traced and the persistence state is
untouched. -/
theorem upgrade_reference_gate
    (opts : Options) (sess : SessionInfo) (body : UpgradeBody) (db : Db)
    (remote : Except String RemoteSubResult) (now : Nat) (rid : String)
    (hauth : opts.authorizeReference = none)
    (href : jsStr body.referenceId = some rid)
    (hne : ¬ rid = sess.userId) :
    ∃ code, upgradeSubscription opts sess body db remote now =
      (.apiError .badRequest code, db, []) := by
  rw [upgradeSubscription]
  cases hct : body.customerType with
  | none =>
    exact ⟨.REFERENCE_ID_NOT_ALLOWED, by
      simp [referenceMiddleware, hct, href, hne, hauth]⟩
  | some ct =>
    cases ct with
    | user =>
      exact ⟨.REFERENCE_ID_NOT_ALLOWED, by
        simp [referenceMiddleware, hct, href, hne, hauth]⟩
    | organization =>
      exact ⟨.AUTHORIZE_REFERENCE_REQUIRED, by
        simp [referenceMiddleware, hct, hauth]⟩

/-- C8 witness: a concrete foreign referenceId with no hook configured. -/
theorem upgrade_reference_gate_witness :
    ∃ code, upgradeSubscription {} { userId := "u1" }
      { plan := "pro", referenceId := some "u2" } {} (.ok { id := "s" }) 0 =
      (.apiError .badRequest code, {}, []) :=
  upgrade_reference_gate {} { userId := "u1" }
    { plan := "pro", referenceId := some "u2" } {} (.ok { id := "s" }) 0
    "u2" rfl (by decide) (by decide)

/-- C9 counterexample: a non-terminal subscription with status paused for
the same referenceId already targets plan pro, yet a new upgrade call for
pro is not rejected as already subscribed — the activeSub check only
considers statuses active and authenticated — and the remote
subscriptions.create call is made. -/
theorem upgrade_paused_same_plan_not_rejected :
    (upgradeSubscription { plans := [{ planId := "plan_p", name := "pro" }] }
      { userId := "u1", userRazorpayCustomerId := some "cust_1" }
      { plan := "pro" }
      { nextId := 1
        subs := [{
          id := 0
          plan := "pro"
          referenceId := "u1"
          razorpayCustomerId := some "cust_1"
          razorpaySubscriptionId := some "sub_0"
          razorpayPlanId := some "plan_p"
          status := .paused }] }
      (.ok { id := "sub_1" }) 5).1 = .ok ∧
    (upgradeSubscription { plans := [{ planId := "plan_p", name := "pro" }] }
      { userId := "u1", userRazorpayCustomerId := some "cust_1" }
      { plan := "pro" }
      { nextId := 1
        subs := [{
          id := 0
          plan := "pro"
          referenceId := "u1"
          razorpayCustomerId := some "cust_1"
          razorpaySubscriptionId := some "sub_0"
          razorpayPlanId := some "plan_p"
          status := .paused }] }
      (.ok { id := "sub_1" }) 5).2.2 = [.remoteCall "subscriptions.create"] := by
  constructor <;> decide

/-- C9 amended: the upgrade endpoint rejects with the already-subscribed
error, making no remote call and leaving the state untouched, exactly
when the first looked-up subscription with status active or authenticated
(same referenceId, and same groupId when the target plan declares a
group) already targets the requested plan; non-terminal rows in other
statuses (created, pending, halted, paused) do not trigger the
rejection. -/
theorem upgrade_already_subscribed_rejects
    (opts : Options) (sess : SessionInfo) (body : UpgradeBody) (db : Db)
    (plan : RazorpayPlan) (a : Subscription)
    (remote : Except String RemoteSubResult) (now : Nat) (cid : String)
    (hb1 : body.referenceId = none) (hb2 : body.customerType = none)
    (hemail : (opts.requireEmailVerification && !sess.userEmailVerified) = false)
    (hplan : opts.plans.find?
      (fun p => decide (strToLower p.name = strToLower body.plan)) = some plan)
    (huid : ¬ sess.userId = "")
    (hcid : jsStr sess.userRazorpayCustomerId = some cid)
    (hactive : upgradeActiveSub db plan sess.userId = some a)
    (hplaneq : a.plan = strToLower plan.name) :
    upgradeSubscription opts sess body db remote now =
      (.apiError .badRequest .ALREADY_SUBSCRIBED_PLAN, db, []) := by
  have hmid : referenceMiddleware opts sess body.customerType body.referenceId
      "upgrade-subscription" = none := by
    simp [referenceMiddleware, hb1, hb2, jsStr]
  have href : resolveActionReferenceId sess body.customerType body.referenceId =
      some sess.userId := by
    simp [resolveActionReferenceId, hb1, hb2, jsStr, huid]
  rw [upgradeSubscription, hmid, upgradeHandler, hemail]
  simp only [Bool.false_eq_true, if_false, hplan, href, hcid, hactive]
  rw [if_pos hplaneq]

/-- C9 amended witness at a concrete active same-plan subscription. -/
theorem upgrade_already_subscribed_rejects_witness :
    upgradeSubscription { plans := [{ planId := "plan_p", name := "pro" }] }
      { userId := "u1", userRazorpayCustomerId := some "cust_1" }
      { plan := "pro" }
      { nextId := 1
        subs := [{
          id := 0
          plan := "pro"
          referenceId := "u1"
          razorpayCustomerId := some "cust_1"
          razorpaySubscriptionId := some "sub_0"
          razorpayPlanId := some "plan_p"
          status := .active }] }
      (.ok { id := "sub_1" }) 5 =
      (.apiError .badRequest .ALREADY_SUBSCRIBED_PLAN,
        { nextId := 1
          subs := [{
            id := 0
            plan := "pro"
            referenceId := "u1"
            razorpayCustomerId := some "cust_1"
            razorpaySubscriptionId := some "sub_0"
            razorpayPlanId := some "plan_p"
            status := .active }] }, []) :=
  upgrade_already_subscribed_rejects
    { plans := [{ planId := "plan_p", name := "pro" }] }
    { userId := "u1", userRazorpayCustomerId := some "cust_1" }
    { plan := "pro" }
    { nextId := 1
      subs := [{
        id := 0
        plan := "pro"
        referenceId := "u1"
        razorpayCustomerId := some "cust_1"
        razorpaySubscriptionId := some "sub_0"
        razorpayPlanId := some "plan_p"
        status := .active }] }
    { planId := "plan_p", name := "pro" }
    { id := 0
      plan := "pro"
      referenceId := "u1"
      razorpayCustomerId := some "cust_1"
      razorpaySubscriptionId := some "sub_0"
      razorpayPlanId := some "plan_p"
      status := .active }
    (.ok { id := "sub_1" }) 5 "cust_1"
    rfl rfl rfl (by decide) (by decide) rfl (by decide) (by decide)

/-- C10: for a charged (likewise updated or resumed) event whose
provider-reported status string is none of the nine known statuses, the
reconciler persists status created on the matched local record, because
toSubscriptionStatus totalizes unknown inputs to created. -/
theorem unknown_status_persists_created
    (opts : Options) (db : Db) (ev : RzpEvent) (now : Nat)
    (z : RzpSubEntity) (r : Subscription)
    (hen : opts.subscriptionEnabled = true)
    (hev : ev.subscription = some z)
    (hunknown : ¬ z.status ∈ knownStatusStrings)
    (hfind : findByRzpId db.subs z.id = some r) :
    (∃ r1, findByRzpId (onSubscriptionCharged opts db ev now).subs z.id = some r1 ∧
      r1.status = .created) ∧
    (∃ r1, findByRzpId (onSubscriptionUpdated opts db ev now).subs z.id = some r1 ∧
      r1.status = .created) ∧
    (∃ r1, findByRzpId (onSubscriptionResumed opts db ev now).subs z.id = some r1 ∧
      r1.status = .created) := by
  have hts : toSubscriptionStatus z.status = .created := by
    simp only [knownStatusStrings, List.mem_cons, List.mem_singleton] at hunknown
    push_neg at hunknown
    obtain ⟨h1, h2, h3, h4, h5, h6, h7, h8, h9⟩ := hunknown
    simp [toSubscriptionStatus, h1, h2, h3, h4, h5, h6, h7, h8, h9]
  refine ⟨⟨chargedUpdate z now r, ?_, ?_⟩, ⟨updatedUpdate z
    (getPlanByPlanId opts.plans z.plan_id) now r, ?_, ?_⟩,
    ⟨resumedUpdate z now r, ?_, ?_⟩⟩
  · have h1 : onSubscriptionCharged opts db ev now =
        { db with subs := (updateById db.subs r.id (chargedUpdate z now)) } := by
      simp [onSubscriptionCharged, hen, hev, hfind]
    rw [h1]
    exact findByRzpId_updateById db.subs z.id r _ (fun _ => rfl) hfind
  · show (chargedUpdate z now r).status = .created
    rw [chargedUpdate]
    exact hts
  · have h1 : onSubscriptionUpdated opts db ev now =
        { db with subs := (updateById db.subs r.id (updatedUpdate z
          (getPlanByPlanId opts.plans z.plan_id) now)) } := by
      simp [onSubscriptionUpdated, hen, hev, hfind]
    rw [h1]
    exact findByRzpId_updateById db.subs z.id r _ (fun _ => rfl) hfind
  · show (updatedUpdate z (getPlanByPlanId opts.plans z.plan_id) now r).status = .created
    simp only [updatedUpdate]
    exact hts
  · have h1 : onSubscriptionResumed opts db ev now =
        { db with subs := (updateById db.subs r.id (resumedUpdate z now)) } := by
      simp [onSubscriptionResumed, hen, hev, hfind]
    rw [h1]
    exact findByRzpId_updateById db.subs z.id r _ (fun _ => rfl) hfind
  · show (resumedUpdate z now r).status = .created
    rw [resumedUpdate]
    exact hts

/-- C10 witness at a concrete one-row state and an unrecognised provider
status string. -/
theorem unknown_status_persists_created_witness :
    (∃ r1, findByRzpId (onSubscriptionCharged {}
        { nextId := 1
          subs := [{
            id := 0
            plan := "pro"
            referenceId := "u1"
            razorpaySubscriptionId := some "sub_1"
            status := .active }] }
        { event := "subscription.charged"
          subscription := some { id := "sub_1", plan_id := "plan_p", status := "unknown" } }
        3).subs "sub_1" = some r1 ∧ r1.status = .created) ∧
    (∃ r1, findByRzpId (onSubscriptionUpdated {}
        { nextId := 1
          subs := [{
            id := 0
            plan := "pro"
            referenceId := "u1"
            razorpaySubscriptionId := some "sub_1"
            status := .active }] }
        { event := "subscription.charged"
          subscription := some { id := "sub_1", plan_id := "plan_p", status := "unknown" } }
        3).subs "sub_1" = some r1 ∧ r1.status = .created) ∧
    (∃ r1, findByRzpId (onSubscriptionResumed {}
        { nextId := 1
          subs := [{
            id := 0
            plan := "pro"
            referenceId := "u1"
            razorpaySubscriptionId := some "sub_1"
            status := .active }] }
        { event := "subscription.charged"
          subscription := some { id := "sub_1", plan_id := "plan_p", status := "unknown" } }
        3).subs "sub_1" = some r1 ∧ r1.status = .created) :=
  unknown_status_persists_created {}
    { nextId := 1
      subs := [{
        id := 0
        plan := "pro"
        referenceId := "u1"
        razorpaySubscriptionId := some "sub_1"
        status := .active }] }
    { event := "subscription.charged"
      subscription := some { id := "sub_1", plan_id := "plan_p", status := "unknown" } }
    3 { id := "sub_1", plan_id := "plan_p", status := "unknown" }
    { id := 0
      plan := "pro"
      referenceId := "u1"
      razorpaySubscriptionId := some "sub_1"
      status := .active }
    rfl rfl (by decide) (by decide)

end RzpSpec
